import Mathlib

/-!
Shallow embedding of the supabase-mcp repository: the text chunker and
chunk-record construction of the import scripts (`fixed_import_transcript.py`,
`import_youtube_data.py`), the four table tools of `supabase_mcp/server.py`,
the scripts' error-handling structure, and the environment-variable guards.
Remote database calls are modelled as explicit function parameters returning
`Except`, so that an uncaught Python exception corresponds to an `Except.error`
escaping a definition, while a `try/except` block corresponds to a `match`
that consumes the error.
-/

/-- Python whitespace test used by `str.split()` (ASCII whitespace characters). -/
def isPySpace (c : Char) : Bool :=
  c == ' ' || c == '\t' || c == '\n' || c == '\r' || c == Char.ofNat 11 || c == Char.ofNat 12

/-- Helper of `pySplit`: walk the characters accumulating the current word in
reverse; a whitespace character closes the current word (dropping it when empty),
so the result is the list of maximal non-whitespace runs. -/
def splitWordsAux : List Char → List Char → List String
  | [], acc => if acc.isEmpty then [] else [String.mk acc.reverse]
  | c :: cs, acc =>
    if isPySpace c then
      (if acc.isEmpty then [] else [String.mk acc.reverse]) ++ splitWordsAux cs []
    else
      splitWordsAux cs (c :: acc)

/-- Python `text.split()`: split on runs of whitespace and discard empty pieces. -/
def pySplit (s : String) : List String :=
  splitWordsAux s.toList []

/-- Python `" ".join(words)`. -/
def joinWords : List String → String
  | [] => ""
  | [w] => w
  | w :: ws => w ++ " " ++ joinWords ws

/-- Python `range(0, n, step)` for `step ≥ 1`: the starts `0, step, 2*step, ...` below `n`. -/
def pyRange (n step : Nat) : List Nat :=
  List.range' 0 ((n + step - 1) / step) step

/-- Transcription of `chunk_text` from `fixed_import_transcript.py` (lines 19-31):
split `text` into whitespace words; if there are at most `chunk_size` words return
`[text]` unchanged, otherwise emit, for every start index `i` of
`range(0, len(words), chunk_size - overlap)`, the single-space join of
`words[i : i + chunk_size]`. -/
def chunk_text (text : String) (chunk_size : Nat := 500) (overlap : Nat := 100) : List String :=
  let words := pySplit text
  if words.length ≤ chunk_size then
    [text]
  else
    (pyRange words.length (chunk_size - overlap)).map
      (fun i => joinWords ((words.drop i).take chunk_size))

/-- One row inserted into `knowledge_chunks` by the import scripts (the `metadata`
JSON column carries script-specific video bookkeeping and is not modelled; no claim
mentions it). -/
structure ChunkRecord where
  document_id : Nat
  content : String
  chunk_number : Nat
  total_chunks : Nat
  context_prefix : String
  context_suffix : String
deriving DecidableEq

/-- Default `ChunkRecord`, used only as the default of `List.getD`. -/
def dRec : ChunkRecord :=
  { document_id := 0, content := "", chunk_number := 0, total_chunks := 0,
    context_prefix := "", context_suffix := "" }

/-- Transcription of the chunk-record loop of `import_transcript`
(`fixed_import_transcript.py` lines 146-168): for each index `i` of `text_chunks`,
build the record with 1-based `chunk_number`, the constant `total_chunks`,
`context_prefix := text_chunks[i-1]` when `i > 0` else `""`, and
`context_suffix := text_chunks[i+1]` when `i < total_chunks - 1` else `""`. -/
def mkChunkRecords (document_id : Nat) (text_chunks : List String) : List ChunkRecord :=
  let total_chunks := text_chunks.length
  (List.range total_chunks).map (fun i =>
    { document_id := document_id
      content := text_chunks.getD i ""
      chunk_number := i + 1
      total_chunks := total_chunks
      context_prefix := if 0 < i then text_chunks.getD (i - 1) "" else ""
      context_suffix := if i < total_chunks - 1 then text_chunks.getD (i + 1) "" else "" })

/-- Python `chunk.get("text", "")` on a transcript chunk dict whose `text` field may
be absent. -/
def ytChunkText (c : Option String) : String :=
  c.getD ""

/-- Transcription of the chunk-record loop of `import_youtube_data`
(`import_youtube_data.py` lines 115-142): same construction as `mkChunkRecords`
but reading each chunk's content as `chunk.get("text", "")`. -/
def mkYTChunkRecords (document_id : Nat) (chunks : List (Option String)) : List ChunkRecord :=
  let total_chunks := chunks.length
  (List.range total_chunks).map (fun i =>
    { document_id := document_id
      content := ytChunkText (chunks.getD i none)
      chunk_number := i + 1
      total_chunks := total_chunks
      context_prefix := if 0 < i then ytChunkText (chunks.getD (i - 1) none) else ""
      context_suffix := if i < total_chunks - 1 then ytChunkText (chunks.getD (i + 1) none) else "" })

/-- Python truthiness of an `Optional[str]`: `None` and `""` are falsy. -/
def pyTruthyOptStr : Option String → Bool
  | none => false
  | some s => s != ""

/-- Python truthiness of an `Optional[int]`: `None` and `0` are falsy. -/
def pyTruthyOptInt : Option Int → Bool
  | none => false
  | some i => i != 0

/-- Python truthiness of an optional dict or list: `None` and the empty collection
are falsy. -/
def pyTruthyOptList {β : Type} : Option (List β) → Bool
  | none => false
  | some l => !l.isEmpty

/-- The query built by `read_table_rows`: a select of `columns` on `table_name`
with chained equality filters, optional ordering and optional limit. `α` is the
type of filter values (Python `Any`). -/
structure ReadQuery (α : Type) where
  table_name : String
  columns : String
  eq_filters : List (String × α)
  order : Option (String × Bool)
  limit : Option Int
deriving DecidableEq

/-- One `.eq(column, value)` call chained onto a read query. -/
def ReadQuery.applyEq {α : Type} (q : ReadQuery α) (p : String × α) : ReadQuery α :=
  { q with eq_filters := q.eq_filters ++ [p] }

/-- Transcription of the query construction of `read_table_rows`
(`supabase_mcp/server.py` lines 108-129): start from the select, then
`if filters:` chain one `.eq` per pair, `if order_by:` apply `.order` with the
`ascending` flag (the `order_method` string is `"order"` in both branches of the
source's conditional), `if limit:` apply `.limit(limit)`. Each `if` is a Python
truthiness test. -/
def read_table_rows_query (α : Type) (table_name columns : String)
    (filters : Option (List (String × α))) (limit : Option Int)
    (order_by : Option String) (ascending : Bool) : ReadQuery α :=
  let q : ReadQuery α :=
    { table_name := table_name, columns := columns, eq_filters := [],
      order := none, limit := none }
  let q := if pyTruthyOptList filters then (filters.getD []).foldl ReadQuery.applyEq q else q
  let q := if pyTruthyOptStr order_by then { q with order := some (order_by.getD "", ascending) } else q
  let q := if pyTruthyOptInt limit then { q with limit := limit } else q
  q

/-- Response object of a query execution; `data` is `none` when the field is
absent or null (the source tests it for truthiness). -/
structure ApiResponse (ρ : Type) where
  data : Option (List ρ)
deriving DecidableEq

/-- Transcription of `read_table_rows` (`supabase_mcp/server.py` lines 73-132):
build the query, execute it through `exec`, and return `response.data` unchanged.
There is no `try/except` in the source, so an error of `exec` propagates. -/
def read_table_rows {α ρ ε : Type} (exec : ReadQuery α → Except ε (ApiResponse ρ))
    (table_name columns : String) (filters : Option (List (String × α)))
    (limit : Option Int) (order_by : Option String) (ascending : Bool) :
    Except ε (Option (List ρ)) :=
  (exec (read_table_rows_query α table_name columns filters limit order_by ascending)).map
    ApiResponse.data

/-- Python `Union[Dict[str, Any], List[Dict[str, Any]]]` for `records`. -/
inductive PyRecords (α : Type) where
  | one (record : List (String × α))
  | many (records : List (List (String × α)))
deriving DecidableEq

/-- The query built by `create_table_records`: an insert of `records`. -/
structure InsertQuery (α : Type) where
  table_name : String
  records : PyRecords α
deriving DecidableEq

/-- The query built by `update_table_records`: an update with equality filters. -/
structure UpdateQuery (α : Type) where
  table_name : String
  updates : List (String × α)
  eq_filters : List (String × α)
deriving DecidableEq

/-- The query built by `delete_table_records`: a delete with equality filters. -/
structure DeleteQuery (α : Type) where
  table_name : String
  eq_filters : List (String × α)
deriving DecidableEq

/-- One `.eq(column, value)` call chained onto an update query. -/
def UpdateQuery.applyEq {α : Type} (q : UpdateQuery α) (p : String × α) : UpdateQuery α :=
  { q with eq_filters := q.eq_filters ++ [p] }

/-- One `.eq(column, value)` call chained onto a delete query. -/
def DeleteQuery.applyEq {α : Type} (q : DeleteQuery α) (p : String × α) : DeleteQuery α :=
  { q with eq_filters := q.eq_filters ++ [p] }

/-- The dictionary returned by the three mutation tools. -/
structure MutationResult (ρ : Type) where
  data : Option (List ρ)
  count : Nat
  status : String
deriving DecidableEq

/-- Transcription of the shared return shaping of the mutation tools
(`supabase_mcp/server.py` lines 176-181, 226-231, 273-278):
`count` is `len(response.data) if response.data else 0` and `status` is
`"success" if response.data else "error"`. -/
def shapeMutationResponse {ρ : Type} (d : Option (List ρ)) : MutationResult ρ :=
  { data := d
    count := if pyTruthyOptList d then (d.getD []).length else 0
    status := if pyTruthyOptList d then "success" else "error" }

/-- Transcription of `create_table_records` (`supabase_mcp/server.py` lines
135-181): insert `records`, execute, shape the response. No `try/except`. -/
def create_table_records {α ρ ε : Type} (exec : InsertQuery α → Except ε (ApiResponse ρ))
    (table_name : String) (records : PyRecords α) : Except ε (MutationResult ρ) :=
  (exec { table_name := table_name, records := records }).map
    (fun resp => shapeMutationResponse resp.data)

/-- Transcription of `update_table_records` (`supabase_mcp/server.py` lines
184-231): build the update, chain one `.eq` per filter pair, execute, shape the
response. No `try/except`. -/
def update_table_records {α ρ ε : Type} (exec : UpdateQuery α → Except ε (ApiResponse ρ))
    (table_name : String) (updates filters : List (String × α)) :
    Except ε (MutationResult ρ) :=
  let q : UpdateQuery α := { table_name := table_name, updates := updates, eq_filters := [] }
  (exec (filters.foldl UpdateQuery.applyEq q)).map
    (fun resp => shapeMutationResponse resp.data)

/-- Transcription of `delete_table_records` (`supabase_mcp/server.py` lines
234-278): build the delete, chain one `.eq` per filter pair, execute, shape the
response. No `try/except`. -/
def delete_table_records {α ρ ε : Type} (exec : DeleteQuery α → Except ε (ApiResponse ρ))
    (table_name : String) (filters : List (String × α)) :
    Except ε (MutationResult ρ) :=
  let q : DeleteQuery α := { table_name := table_name, eq_filters := [] }
  (exec (filters.foldl DeleteQuery.applyEq q)).map
    (fun resp => shapeMutationResponse resp.data)

/-- Outcome of one iteration of the chunk-insert loops: the printed
"Created chunk n/total" line, or the caught and printed error followed by
`continue`. -/
inductive ChunkInsertOutcome where
  | created (chunk_number total_chunks : Nat)
  | failed (chunk_number : Nat) (err : String)
deriving DecidableEq

/-- Transcription of the chunk-insert loops of the import scripts
(`fixed_import_transcript.py` lines 170-175 and `import_youtube_data.py` lines
144-150): each insert is wrapped in `try/except Exception`, the handler prints
and the loop continues with the next chunk. The `Except` return type is where an
uncaught exception of the loop body would surface. -/
def importChunksLoop (ins : ChunkRecord → Except String Unit) :
    List ChunkRecord → Except String (List ChunkInsertOutcome)
  | [] => Except.ok []
  | r :: rs =>
    let outcome :=
      match ins r with
      | Except.ok _ => ChunkInsertOutcome.created r.chunk_number r.total_chunks
      | Except.error e => ChunkInsertOutcome.failed r.chunk_number e
    match importChunksLoop ins rs with
    | Except.ok rest => Except.ok (outcome :: rest)
    | Except.error e => Except.error e

/-- Outcome of the YouTube-video-record block of `import_transcript`. -/
inductive YtRecordStep where
  | existed
  | created
  | warned (err : String)
deriving DecidableEq

/-- Transcription of the YouTube-record block of `import_transcript`
(`fixed_import_transcript.py` lines 128-144): inside one `try`, select existing
records by `youtube_id`; when the returned data is non-empty skip the insert,
otherwise insert; any exception is caught, a warning is printed, and the script
continues with the chunks. -/
def ytRecordStep (checkYoutube : Except String (List Unit))
    (insertYoutube : Except String Unit) : YtRecordStep :=
  match checkYoutube with
  | Except.error e => YtRecordStep.warned e
  | Except.ok dat =>
    if 0 < dat.length then YtRecordStep.existed
    else
      match insertYoutube with
      | Except.ok _ => YtRecordStep.created
      | Except.error e => YtRecordStep.warned e

/-- Overall outcome of `import_transcript` after the client is connected. -/
inductive ImportOutcome where
  | exited (code : Nat)
  | finished (source_id document_id : Nat) (yt : YtRecordStep)
      (outcomes : List ChunkInsertOutcome)
deriving DecidableEq

/-- Transcription of the remote-call sequence of `import_transcript`
(`fixed_import_transcript.py` lines 73-181): a failed source insert or document
insert is caught and the script exits with status 1; the YouTube block is caught
and continues; the chunk loop catches per-chunk errors and continues. Every
remote call of the source sits inside a `try`, so each caught failure becomes a
normal return and only an uncaught exception could produce `Except.error`. -/
def import_transcript_run
    (insertSource : Except String Nat)
    (insertDocument : Nat → Except String Nat)
    (checkYoutube : Except String (List Unit))
    (insertYoutube : Except String Unit)
    (insertChunk : ChunkRecord → Except String Unit)
    (transcript_text : String) : Except String ImportOutcome :=
  match insertSource with
  | Except.error _ => Except.ok (ImportOutcome.exited 1)
  | Except.ok source_id =>
    match insertDocument source_id with
    | Except.error _ => Except.ok (ImportOutcome.exited 1)
    | Except.ok document_id =>
      let yt := ytRecordStep checkYoutube insertYoutube
      match importChunksLoop insertChunk
          (mkChunkRecords document_id (chunk_text transcript_text 500 100)) with
      | Except.ok outs => Except.ok (ImportOutcome.finished source_id document_id yt outs)
      | Except.error e => Except.error e

/-- Error message of the credential check in `supabase_lifespan`
(`supabase_mcp/server.py` lines 50-53). -/
def missingCredsError : String :=
  "Missing environment variables. Please set SUPABASE_URL and SUPABASE_SERVICE_KEY."

/-- Transcription of the startup of `supabase_lifespan` (`supabase_mcp/server.py`
lines 46-56): read both environment variables (`none` models an unset variable);
when either is falsy raise `ValueError` before `create_client` is called,
otherwise construct the client from the two values. -/
def supabase_lifespan_init (supabase_url supabase_key : Option String) :
    Except String (String × String) :=
  if !pyTruthyOptStr supabase_url || !pyTruthyOptStr supabase_key then
    Except.error missingCredsError
  else
    Except.ok (supabase_url.getD "", supabase_key.getD "")

/-- How an import or query script starts: exit with status 1, or connect with
the two credential strings. -/
inductive ScriptStart where
  | exit1
  | connect (supabase_url supabase_key : String)
deriving DecidableEq

/-- Transcription of the credential guard shared verbatim by the scripts
(`fixed_import_transcript.py` lines 37-44, `import_youtube_data.py` lines 26-32,
`query_knowledge.py` lines 23-29 and 77-83, `setup_knowledge_db.py` lines 33-39,
`verify_knowledge_db.py` lines 22-28): when either variable is unset or empty,
print the error and `sys.exit(1)` before any remote call; otherwise proceed to
`create_client`. -/
def script_credentials_check (supabase_url supabase_key : Option String) : ScriptStart :=
  if !pyTruthyOptStr supabase_url || !pyTruthyOptStr supabase_key then
    ScriptStart.exit1
  else
    ScriptStart.connect (supabase_url.getD "") (supabase_key.getD "")

/-- Two consecutive chunks "overlap in exactly `k` words": both have at least
`k` words and the last `k` words of the first are the first `k` words of the
second. This is the reading of claim C1's constant-overlap conjunct. -/
abbrev sharesExactly (a b : List String) (k : Nat) : Prop :=
  k ≤ a.length ∧ k ≤ b.length ∧ a.drop (a.length - k) = b.take k

/-- Claim C6's description of the query built by `read_table_rows`: the select
carries the requested table and columns, one equality filter per provided pair,
the ordering whenever `order_by` is provided, and the limit whenever `limit` is
provided. -/
abbrev readClaimShape (α : Type) (table_name columns : String)
    (filters : Option (List (String × α))) (limit : Option Int)
    (order_by : Option String) (ascending : Bool) : Prop :=
  let q := read_table_rows_query α table_name columns filters limit order_by ascending
  q.table_name = table_name ∧ q.columns = columns ∧
  q.eq_filters = filters.getD [] ∧
  q.order = order_by.map (fun c => (c, ascending)) ∧
  q.limit = limit

/-- Shape required of a mutation tool's return value by claim C8: `count` is the
length of the data (0 when absent or empty) and `status` is `"error"` exactly on
absent or empty data, `"success"` otherwise. -/
abbrev mutationShapeOK {ρ : Type} (r : MutationResult ρ) : Prop :=
  r.count = (r.data.getD []).length ∧
  r.status = (if (r.data.getD []).isEmpty then "error" else "success")

theorem pyRange_length (n step : Nat) :
    (pyRange n step).length = (n + step - 1) / step := by
  simp [pyRange]

theorem pyRange_getElem (n step i : Nat) (h : i < (pyRange n step).length) :
    (pyRange n step)[i] = step * i := by
  simp [pyRange]

theorem lt_ceilDiv_iff (n s j : Nat) (hs : 0 < s) :
    j < (n + s - 1) / s ↔ j * s < n := by
  rw [Nat.lt_iff_add_one_le, Nat.le_div_iff_mul_le hs, Nat.succ_mul]
  omega

theorem chunk_text_eq_map (text : String) (cs ov : Nat)
    (h : ¬ (pySplit text).length ≤ cs) :
    chunk_text text cs ov =
      (pyRange (pySplit text).length (cs - ov)).map
        (fun i => joinWords (((pySplit text).drop i).take cs)) := by
  simp [chunk_text, h]

/-- C10: a text whose whitespace-split word count is at most `chunk_size` is
returned by `chunk_text` as the one-element list containing the original text
verbatim, original whitespace included; re-assembly by single-space joins happens
only in the other branch. -/
theorem chunk_text_short_text (text : String) (cs ov : Nat)
    (h : (pySplit text).length ≤ cs) :
    chunk_text text cs ov = [text] := by
  simp [chunk_text, h]

theorem chunk_text_short_text_witness :
    chunk_text "hello  world" 500 100 = ["hello  world"] :=
  chunk_text_short_text "hello  world" 500 100 (by decide)

/-- C3: with `overlap < chunk_size`, `chunk_text` yields 1 chunk when the word
count `n` is at most `chunk_size`, and otherwise `⌈n / (chunk_size - overlap)⌉`
chunks, written as `(n + step - 1) / step` for `step = chunk_size - overlap`. -/
theorem chunk_text_count (text : String) (cs ov : Nat) (_hov : ov < cs) :
    (chunk_text text cs ov).length =
      if (pySplit text).length ≤ cs then 1
      else ((pySplit text).length + (cs - ov) - 1) / (cs - ov) := by
  by_cases h : (pySplit text).length ≤ cs
  · simp [chunk_text, h]
  · simp [chunk_text_eq_map text cs ov h, pyRange_length, h]

theorem chunk_text_count_witness :
    (chunk_text "a b c d e f g" 5 2).length =
      if (pySplit "a b c d e f g").length ≤ 5 then 1
      else ((pySplit "a b c d e f g").length + (5 - 2) - 1) / (5 - 2) :=
  chunk_text_count "a b c d e f g" 5 2 (by decide)

theorem pyRange_getElem? (n step i : Nat) (h : i < (pyRange n step).length) :
    (pyRange n step)[i]? = some (step * i) := by
  rw [List.getElem?_eq_getElem h, pyRange_getElem]

/-- C1 (amended): for `overlap < chunk_size` and more than `chunk_size` words,
`chunk_text` returns one chunk per window start below the word count (so
`⌈n / step⌉` chunks for `step = chunk_size - overlap`), the `i`-th chunk is the
single-space join of `words[i*step : i*step + chunk_size]`, every window has at
most `chunk_size` words, and consecutive windows share their boundary words: the
last `k` words of window `i` are the first `k` words of window `i+1`, where
`k = min overlap (n - (i+1)*step)`; `k` equals `overlap` whenever window `i` is
full (`i*step + chunk_size ≤ n`), but is smaller for a truncated final window, so
the overlap is not constant in general. -/
theorem chunk_text_spec (text : String) (cs ov : Nat) (hov : ov < cs)
    (hlong : cs < (pySplit text).length) :
    (chunk_text text cs ov).length =
        ((pySplit text).length + (cs - ov) - 1) / (cs - ov) ∧
    (∀ i, i < (chunk_text text cs ov).length →
        (chunk_text text cs ov).getD i "" =
          joinWords (((pySplit text).drop (i * (cs - ov))).take cs)) ∧
    (∀ i, (((pySplit text).drop (i * (cs - ov))).take cs).length ≤ cs) ∧
    (∀ i, i + 1 < (chunk_text text cs ov).length →
        sharesExactly (((pySplit text).drop (i * (cs - ov))).take cs)
          (((pySplit text).drop ((i + 1) * (cs - ov))).take cs)
          (min ov ((pySplit text).length - (i + 1) * (cs - ov)))) ∧
    (∀ i, i + 1 < (chunk_text text cs ov).length →
        i * (cs - ov) + cs ≤ (pySplit text).length →
        min ov ((pySplit text).length - (i + 1) * (cs - ov)) = ov) := by
  have hs : 0 < cs - ov := by omega
  have hnle : ¬ (pySplit text).length ≤ cs := by omega
  have hmap := chunk_text_eq_map text cs ov hnle
  have hlen : (chunk_text text cs ov).length =
      ((pySplit text).length + (cs - ov) - 1) / (cs - ov) := by
    rw [hmap, List.length_map, pyRange_length]
  refine ⟨hlen, ?_, ?_, ?_, ?_⟩
  · intro i h
    rw [hlen] at h
    have h2 : i < (pyRange (pySplit text).length (cs - ov)).length := by
      rw [pyRange_length]; exact h
    rw [hmap, List.getD_eq_getElem?_getD, List.getElem?_map, pyRange_getElem? _ _ _ h2]
    simp [Nat.mul_comm]
  · intro i
    simp
  · intro i hi
    rw [hlen, lt_ceilDiv_iff _ _ _ hs] at hi
    have hsucc : (i + 1) * (cs - ov) = i * (cs - ov) + (cs - ov) := by ring
    rw [hsucc] at hi
    refine ⟨?_, ?_, ?_⟩
    · simp only [hsucc, List.length_take, List.length_drop]
      omega
    · simp only [hsucc, List.length_take, List.length_drop]
      omega
    · have hdrop_amt : (((pySplit text).drop (i * (cs - ov))).take cs).length -
          min ov ((pySplit text).length - (i + 1) * (cs - ov)) = cs - ov := by
        simp only [hsucc, List.length_take, List.length_drop]
        omega
      rw [hdrop_amt, List.drop_take, List.drop_drop, List.take_take, hsucc]
      rw [List.take_eq_take]
      simp only [hsucc, List.length_take, List.length_drop]
      omega
  · intro i hi hfull
    rw [hlen, lt_ceilDiv_iff _ _ _ hs] at hi
    have hsucc : (i + 1) * (cs - ov) = i * (cs - ov) + (cs - ov) := by ring
    rw [hsucc] at hi ⊢
    omega

theorem chunk_text_spec_witness :
    (chunk_text "a b c d e f g" 5 2).length =
      ((pySplit "a b c d e f g").length + (5 - 2) - 1) / (5 - 2) :=
  (chunk_text_spec "a b c d e f g" 5 2 (by decide) (by decide)).1

/-- Counterexample to C1 as stated: with `chunk_size = 5` and `overlap = 2` on a
7-word text, `chunk_text` returns `["a b c d e", "d e f g", "g"]`, and the last
pair of consecutive chunks does not overlap in exactly 2 words (the final chunk
has a single word). -/
theorem chunk_text_overlap_cex :
    chunk_text "a b c d e f g" 5 2 = ["a b c d e", "d e f g", "g"] ∧
    ¬ sharesExactly (pySplit ((chunk_text "a b c d e f g" 5 2).getD 1 ""))
        (pySplit ((chunk_text "a b c d e f g" 5 2).getD 2 "")) 2 := by
  decide

theorem mkChunkRecords_length (doc : Nat) (cs : List String) :
    (mkChunkRecords doc cs).length = cs.length := by
  simp [mkChunkRecords]

theorem mkChunkRecords_getD (doc : Nat) (cs : List String) (i : Nat)
    (h : i < cs.length) :
    (mkChunkRecords doc cs).getD i dRec =
      { document_id := doc
        content := cs.getD i ""
        chunk_number := i + 1
        total_chunks := cs.length
        context_prefix := if 0 < i then cs.getD (i - 1) "" else ""
        context_suffix := if i < cs.length - 1 then cs.getD (i + 1) "" else "" } := by
  simp [mkChunkRecords, List.getD_eq_getElem?_getD, List.getElem?_map,
    List.getElem?_range, h]

theorem ytChunkText_optMap (o : Option (Option String)) :
    (Option.map ytChunkText o).getD "" = ytChunkText (o.getD none) := by
  cases o <;> simp [ytChunkText]

theorem mkYTChunkRecords_eq (doc : Nat) (yt : List (Option String)) :
    mkYTChunkRecords doc yt = mkChunkRecords doc (yt.map ytChunkText) := by
  unfold mkYTChunkRecords mkChunkRecords
  simp only [List.length_map]
  apply List.map_congr_left
  intro i _
  simp [List.getD_eq_getElem?_getD, List.getElem?_map, ytChunkText_optMap]

/-- Neighbor-context invariant of a sequence of chunk records: each record's
`context_suffix` is the next record's content, each record's `context_prefix` is
the previous record's content, the first record's `context_prefix` is empty and
the last record's `context_suffix` is empty. -/
abbrev neighborContextOK (recs : List ChunkRecord) : Prop :=
  (∀ i, i + 1 < recs.length →
      (recs.getD i dRec).context_suffix = (recs.getD (i + 1) dRec).content ∧
      ChunkRecord.context_prefix (recs.getD (i + 1) dRec) = (recs.getD i dRec).content) ∧
  (0 < recs.length →
      ChunkRecord.context_prefix (recs.getD 0 dRec) = "" ∧
      (recs.getD (recs.length - 1) dRec).context_suffix = "")

theorem neighborContextOK_mkChunkRecords (doc : Nat) (cs : List String) :
    neighborContextOK (mkChunkRecords doc cs) := by
  constructor
  · intro i hi
    rw [mkChunkRecords_length] at hi
    rw [mkChunkRecords_getD doc cs i (by omega), mkChunkRecords_getD doc cs (i + 1) (by omega)]
    constructor
    · simp only
      rw [if_pos (by omega)]
    · simp only
      rw [if_pos (by omega)]
      simp
  · intro hl
    rw [mkChunkRecords_length] at hl
    rw [mkChunkRecords_getD doc cs 0 (by omega), mkChunkRecords_length,
      mkChunkRecords_getD doc cs (cs.length - 1) (by omega)]
    constructor
    · simp
    · simp only
      rw [if_neg (by omega)]

/-- C2: in both import scripts, the record built for chunk `i` (1-based) carries
`context_prefix` equal to the previous chunk's content (empty for the first
chunk) and `context_suffix` equal to the next chunk's content (empty for the
last chunk). -/
theorem import_chunk_context (doc : Nat) (text_chunks : List String)
    (yt_chunks : List (Option String)) :
    neighborContextOK (mkChunkRecords doc text_chunks) ∧
    neighborContextOK (mkYTChunkRecords doc yt_chunks) := by
  refine ⟨neighborContextOK_mkChunkRecords doc text_chunks, ?_⟩
  rw [mkYTChunkRecords_eq]
  exact neighborContextOK_mkChunkRecords doc (yt_chunks.map ytChunkText)

theorem import_chunk_context_witness :
    ((mkChunkRecords 7 ["a", "b", "c"]).getD 0 dRec).context_suffix =
      ((mkChunkRecords 7 ["a", "b", "c"]).getD 1 dRec).content :=
  ((import_chunk_context 7 ["a", "b", "c"] []).1.1 0 (by decide)).1

/-- Numbering invariant of a sequence of chunk records: `chunk_number` is the
1-based position and `total_chunks` is the length of the whole sequence. -/
abbrev numberingOK (recs : List ChunkRecord) : Prop :=
  ∀ i, i < recs.length →
    (recs.getD i dRec).chunk_number = i + 1 ∧
    (recs.getD i dRec).total_chunks = recs.length

theorem numberingOK_mkChunkRecords (doc : Nat) (cs : List String) :
    numberingOK (mkChunkRecords doc cs) := by
  intro i hi
  rw [mkChunkRecords_length] at hi
  rw [mkChunkRecords_getD doc cs i hi, mkChunkRecords_length]
  exact ⟨rfl, rfl⟩

/-- C4: in both import scripts, every chunk record carries `chunk_number` equal
to its 1-based position and `total_chunks` equal to the number of chunks of the
document, so `total_chunks` is the same in all records of one document. -/
theorem import_chunk_numbering (doc : Nat) (text_chunks : List String)
    (yt_chunks : List (Option String)) :
    numberingOK (mkChunkRecords doc text_chunks) ∧
    (mkChunkRecords doc text_chunks).length = text_chunks.length ∧
    numberingOK (mkYTChunkRecords doc yt_chunks) ∧
    (mkYTChunkRecords doc yt_chunks).length = yt_chunks.length := by
  refine ⟨numberingOK_mkChunkRecords doc text_chunks, mkChunkRecords_length doc text_chunks,
    ?_, ?_⟩
  · rw [mkYTChunkRecords_eq]
    exact numberingOK_mkChunkRecords doc (yt_chunks.map ytChunkText)
  · rw [mkYTChunkRecords_eq, mkChunkRecords_length, List.length_map]

theorem import_chunk_numbering_witness :
    ((mkChunkRecords 7 ["a", "b"]).getD 1 dRec).chunk_number = 2 ∧
    ((mkChunkRecords 7 ["a", "b"]).getD 1 dRec).total_chunks =
      (mkChunkRecords 7 ["a", "b"]).length :=
  (import_chunk_numbering 7 ["a", "b"] []).1 1 (by decide)

theorem importChunksLoop_ok (ins : ChunkRecord → Except String Unit)
    (recs : List ChunkRecord) :
    ∃ outs, importChunksLoop ins recs = Except.ok outs ∧ outs.length = recs.length := by
  induction recs with
  | nil => exact ⟨[], rfl, rfl⟩
  | cons r rs ih =>
    obtain ⟨outs, hout, hlen⟩ := ih
    cases hins : ins r with
    | ok u =>
      exact ⟨ChunkInsertOutcome.created r.chunk_number r.total_chunks :: outs,
        by simp [importChunksLoop, hins, hout], by simp [hlen]⟩
    | error e =>
      exact ⟨ChunkInsertOutcome.failed r.chunk_number e :: outs,
        by simp [importChunksLoop, hins, hout], by simp [hlen]⟩

/-- C5 (amended): the import scripts catch every remote-call exception at the
call site — a failed source or document insert makes `import_transcript` exit
with status 1, a failed YouTube check/insert is caught as a warning, and a
failed chunk insert is caught and the loop continues with the next chunk, so
the scripts' runs always return normally and the chunk loop yields one outcome
per chunk; the MCP server tools, however, contain no handler, so an exception
raised by `query.execute()` propagates out of `read_table_rows` uncaught. -/
theorem import_error_policy
    (insertSource : Except String Nat) (insertDocument : Nat → Except String Nat)
    (checkYoutube : Except String (List Unit)) (insertYoutube : Except String Unit)
    (insertChunk : ChunkRecord → Except String Unit) (transcript_text : String)
    (recs : List ChunkRecord)
    {α ρ : Type} (exec : ReadQuery α → Except String (ApiResponse ρ))
    (table_name columns : String) (e : String)
    (he : exec (read_table_rows_query α table_name columns none none none true) =
      Except.error e) :
    (∃ out, import_transcript_run insertSource insertDocument checkYoutube insertYoutube
        insertChunk transcript_text = Except.ok out) ∧
    (∃ outs, importChunksLoop insertChunk recs = Except.ok outs ∧
        outs.length = recs.length) ∧
    read_table_rows exec table_name columns none none none true = Except.error e := by
  refine ⟨?_, importChunksLoop_ok insertChunk recs, ?_⟩
  · unfold import_transcript_run
    cases hsrc : insertSource with
    | error e1 => exact ⟨ImportOutcome.exited 1, rfl⟩
    | ok source_id =>
      cases hdoc : insertDocument source_id with
      | error e1 =>
        simp only [hdoc]
        exact ⟨ImportOutcome.exited 1, rfl⟩
      | ok document_id =>
        obtain ⟨outs, hout, _⟩ := importChunksLoop_ok insertChunk
          (mkChunkRecords document_id (chunk_text transcript_text 500 100))
        simp only [hdoc, hout]
        exact ⟨_, rfl⟩
  · simp [read_table_rows, he, Except.map]

theorem import_error_policy_witness :
    (∃ out, import_transcript_run (Except.error "boom") (fun _ => Except.ok 1)
        (Except.ok []) (Except.ok ()) (fun _ => Except.error "down") "x" =
        Except.ok out) ∧
    (∃ outs, importChunksLoop (fun _ => Except.error "down") [dRec] = Except.ok outs ∧
        outs.length = [dRec].length) ∧
    read_table_rows (fun _ : ReadQuery Nat =>
        (Except.error "net" : Except String (ApiResponse Nat)))
      "users" "*" none none none true = Except.error "net" :=
  import_error_policy (Except.error "boom") (fun _ => Except.ok 1) (Except.ok [])
    (Except.ok ()) (fun _ => Except.error "down") "x" [dRec]
    (fun _ => Except.error "net") "users" "*" "net" rfl

/-- Counterexample to C5 as stated: the server tools have no `try/except`, so an
exception raised by the executed query propagates uncaught out of
`read_table_rows` and out of `create_table_records`. -/
theorem server_tools_propagate_cex :
    read_table_rows (fun _ : ReadQuery Nat =>
        (Except.error "connection reset" : Except String (ApiResponse Nat)))
      "users" "*" none none none true = Except.error "connection reset" ∧
    create_table_records (fun _ : InsertQuery Nat =>
        (Except.error "connection reset" : Except String (ApiResponse Nat)))
      "users" (PyRecords.one []) = Except.error "connection reset" :=
  ⟨rfl, rfl⟩

theorem not_truthy_getD {β : Type} (o : Option (List β))
    (h : pyTruthyOptList o = false) : o.getD [] = [] := by
  cases o with
  | none => rfl
  | some l =>
    cases l with
    | nil => rfl
    | cons a as => simp [pyTruthyOptList] at h

theorem foldl_applyEq_fields {α : Type} (q : ReadQuery α) (fs : List (String × α)) :
    (fs.foldl ReadQuery.applyEq q).table_name = q.table_name ∧
    (fs.foldl ReadQuery.applyEq q).columns = q.columns ∧
    (fs.foldl ReadQuery.applyEq q).order = q.order ∧
    (fs.foldl ReadQuery.applyEq q).limit = q.limit ∧
    (fs.foldl ReadQuery.applyEq q).eq_filters = q.eq_filters ++ fs := by
  induction fs generalizing q with
  | nil => simp
  | cons p ps ih =>
    have h := ih (ReadQuery.applyEq q p)
    simp only [List.foldl_cons]
    refine ⟨h.1, h.2.1, h.2.2.1, h.2.2.2.1, ?_⟩
    rw [h.2.2.2.2]
    simp [ReadQuery.applyEq]

/-- Counterexample to C6 as stated: providing `limit = 0` (and an empty
`order_by` string) leaves the built query without a limit and without an
ordering, because the source tests both for truthiness, so the provided limit
is not applied. -/
theorem read_query_claim_cex :
    ¬ readClaimShape Nat "users" "*" none (some 0) (some "") true ∧
    (read_table_rows_query Nat "users" "*" none (some 0) (some "") true).limit = none ∧
    (read_table_rows_query Nat "users" "*" none (some 0) (some "") true).order = none := by
  decide

theorem read_query_fields {α : Type} (table_name columns : String)
    (filters : Option (List (String × α))) (limit : Option Int)
    (order_by : Option String) (ascending : Bool) :
    (read_table_rows_query α table_name columns filters limit order_by ascending).table_name =
        table_name ∧
    (read_table_rows_query α table_name columns filters limit order_by ascending).columns =
        columns ∧
    (read_table_rows_query α table_name columns filters limit order_by ascending).eq_filters =
        filters.getD [] ∧
    (read_table_rows_query α table_name columns filters limit order_by ascending).order =
        (if pyTruthyOptStr order_by then some (order_by.getD "", ascending) else none) ∧
    (read_table_rows_query α table_name columns filters limit order_by ascending).limit =
        (if pyTruthyOptInt limit then limit else none) := by
  unfold read_table_rows_query
  by_cases hf : pyTruthyOptList filters <;>
    by_cases ho : pyTruthyOptStr order_by <;>
      by_cases hl : pyTruthyOptInt limit <;>
        simp [hf, ho, hl, foldl_applyEq_fields, not_truthy_getD]

/-- C6 (amended): `read_table_rows` builds a select of `columns` on
`table_name`; it chains exactly one equality filter per provided `(column,
value)` pair; it applies the ordering with the `ascending` flag when a
non-empty `order_by` is provided and the limit when a non-zero `limit` is
provided (a falsy `order_by` or `limit` is skipped); it executes the query and
returns the response's data unchanged. -/
theorem read_table_rows_spec (α ρ ε : Type) (exec : ReadQuery α → Except ε (ApiResponse ρ))
    (table_name columns : String) (filters : Option (List (String × α)))
    (limit : Option Int) (order_by : Option String) (ascending : Bool) :
    (read_table_rows_query α table_name columns filters limit order_by ascending).table_name =
        table_name ∧
    (read_table_rows_query α table_name columns filters limit order_by ascending).columns =
        columns ∧
    (read_table_rows_query α table_name columns filters limit order_by ascending).eq_filters =
        filters.getD [] ∧
    (read_table_rows_query α table_name columns filters limit order_by ascending).order =
        (if pyTruthyOptStr order_by then some (order_by.getD "", ascending) else none) ∧
    (read_table_rows_query α table_name columns filters limit order_by ascending).limit =
        (if pyTruthyOptInt limit then limit else none) ∧
    read_table_rows exec table_name columns filters limit order_by ascending =
      (exec (read_table_rows_query α table_name columns filters limit order_by
        ascending)).map ApiResponse.data := by
  have h := read_query_fields (α := α) table_name columns filters limit order_by ascending
  exact ⟨h.1, h.2.1, h.2.2.1, h.2.2.2.1, h.2.2.2.2, rfl⟩

/-- C7: both environment variables are required — when either is unset or
empty, `supabase_lifespan` raises the `ValueError` before constructing a
client, and the scripts' shared credential guard prints the error and exits
with status 1 before any remote call. -/
theorem env_vars_required (supabase_url supabase_key : Option String)
    (h : pyTruthyOptStr supabase_url = false ∨ pyTruthyOptStr supabase_key = false) :
    supabase_lifespan_init supabase_url supabase_key = Except.error missingCredsError ∧
    script_credentials_check supabase_url supabase_key = ScriptStart.exit1 := by
  have hc : (!pyTruthyOptStr supabase_url || !pyTruthyOptStr supabase_key) = true := by
    rcases h with h | h <;> simp [h]
  constructor
  · simp [supabase_lifespan_init, hc]
  · simp [script_credentials_check, hc]

theorem env_vars_required_witness :
    supabase_lifespan_init none (some "service-key") = Except.error missingCredsError ∧
    script_credentials_check none (some "service-key") = ScriptStart.exit1 :=
  env_vars_required none (some "service-key") (Or.inl rfl)

theorem of_map_eq_ok {ε β γ : Type} (g : β → γ) (x : Except ε β) (r : γ)
    (h : x.map g = Except.ok r) : ∃ b, x = Except.ok b ∧ g b = r := by
  cases x with
  | error e => simp [Except.map] at h
  | ok b =>
    refine ⟨b, rfl, ?_⟩
    simpa [Except.map] using h

theorem shapeMutationResponse_ok {ρ : Type} (d : Option (List ρ)) :
    mutationShapeOK (shapeMutationResponse d) := by
  rcases d with _ | l
  · simp [mutationShapeOK, shapeMutationResponse, pyTruthyOptList]
  · rcases l with _ | ⟨a, as⟩ <;>
      simp [mutationShapeOK, shapeMutationResponse, pyTruthyOptList]

/-- C8: whenever one of the three mutation tools returns, the returned
dictionary's `count` is the length of the response's data (0 when the data is
empty or absent) and its `status` is `"success"` exactly when the data is
non-empty — in particular an update or delete that matched zero rows returns
`status = "error"` with `count = 0` even though no exception occurred. -/
theorem mutation_tools_result_shape {α ρ ε : Type}
    (execI : InsertQuery α → Except ε (ApiResponse ρ))
    (execU : UpdateQuery α → Except ε (ApiResponse ρ))
    (execD : DeleteQuery α → Except ε (ApiResponse ρ))
    (table_name : String) (records : PyRecords α) (updates filters : List (String × α))
    (rc ru rd : MutationResult ρ)
    (hc : create_table_records execI table_name records = Except.ok rc)
    (hu : update_table_records execU table_name updates filters = Except.ok ru)
    (hd : delete_table_records execD table_name filters = Except.ok rd) :
    mutationShapeOK rc ∧ mutationShapeOK ru ∧ mutationShapeOK rd := by
  obtain ⟨respc, -, hrc⟩ := of_map_eq_ok _ _ _ hc
  obtain ⟨respu, -, hru⟩ := of_map_eq_ok _ _ _ hu
  obtain ⟨respd, -, hrd⟩ := of_map_eq_ok _ _ _ hd
  exact ⟨hrc ▸ shapeMutationResponse_ok respc.data,
    hru ▸ shapeMutationResponse_ok respu.data,
    hrd ▸ shapeMutationResponse_ok respd.data⟩

theorem mutation_tools_result_shape_witness :
    mutationShapeOK (shapeMutationResponse (ρ := Nat) (some [])) ∧
    mutationShapeOK (shapeMutationResponse (ρ := Nat) (some [3]))  ∧
    mutationShapeOK (shapeMutationResponse (ρ := Nat) none) :=
  mutation_tools_result_shape (ε := String)
    (fun _ : InsertQuery Nat => Except.ok ⟨some []⟩)
    (fun _ : UpdateQuery Nat => Except.ok ⟨some [3]⟩)
    (fun _ : DeleteQuery Nat => Except.ok ⟨none⟩)
    "users" (PyRecords.one []) [] []
    (shapeMutationResponse (some [])) (shapeMutationResponse (some [3]))
    (shapeMutationResponse none) rfl rfl rfl

/-- C9: in `read_table_rows`, `limit = 0` behaves identically to `limit = None`
(no limit applied) and `filters = {}` behaves identically to `filters = None`
(no equality filter applied), because both are tested for truthiness. -/
theorem read_limit_zero_filters_empty (α ρ ε : Type)
    (exec : ReadQuery α → Except ε (ApiResponse ρ)) (table_name columns : String)
    (filters : Option (List (String × α))) (limit : Option Int)
    (order_by : Option String) (ascending : Bool) :
    read_table_rows exec table_name columns filters (some 0) order_by ascending =
      read_table_rows exec table_name columns filters none order_by ascending ∧
    read_table_rows exec table_name columns (some []) limit order_by ascending =
      read_table_rows exec table_name columns none limit order_by ascending :=
  ⟨rfl, rfl⟩
